import Mathlib

/-!
Verification of the indexer-service repository: a shallow embedding of the
indexer data model, the repository operations in
`src/infra/repositories/indexer_repository.rs`, the indexer-type registry in
`src/handlers/indexers/indexer_types/mod.rs`, the HTTP router in
`src/routes.rs`, and (modelled from the spec, since the corresponding files
are not part of the available source tree) the domain enumerations and the
lifecycle orchestrator's `start`/`fail` operations.

Machine integers: `Uuid` is modelled as `Nat` (only equality matters),
`i64` process ids as `Int`, `u32` process ids as `Nat`.  Database tables are
modelled as `List IndexerDb`; each repository operation takes the table and
returns the diesel result together with the updated table.
-/

/-- Modelled from the spec: the domain enumeration `IndexerStatus` lives in
`src/domain/models/indexer.rs`, which is not under the available source tree.
The spec (§3) fixes the closed state set `Created`, `Running`, `Stopped`,
`FailedRunning`, `FailedStopping`. -/
inductive IndexerStatus where
  | Created
  | Running
  | Stopped
  | FailedRunning
  | FailedStopping
deriving DecidableEq, Repr

/-- Modelled from the spec: the domain enumeration `IndexerType` lives in
`src/domain/models/indexer.rs`, which is not under the available source tree.
The spec (§1, §9) describes a closed, explicitly enumerated set of indexer
types with `Webhook` as the reference instantiation, "leaving room for new
variants", and its error taxonomy (§7) includes `ConfigurationError (unknown
indexer type)`; the source's `get_indexer_handler` accordingly has a
catch-all match arm for non-`Webhook` variants.  A declared non-`Webhook`
variant is represented abstractly as `Other`. -/
inductive IndexerType where
  | Webhook
  | Other
deriving DecidableEq, Repr

/-- strum's parse error type: `FromStr` on a strum-derived enum fails with
`ParseError::VariantNotFound` on any string that is not a variant name. -/
inductive ParseError where
  | VariantNotFound
deriving DecidableEq, Repr

/-- Modelled from the spec: strum's derived `Display` renders a variant as its
declared name (the strings the repository tests in
`src/infra/repositories/indexer_repository.rs` use: "Created", ...). -/
def IndexerStatus.toText : IndexerStatus → String
  | .Created => "Created"
  | .Running => "Running"
  | .Stopped => "Stopped"
  | .FailedRunning => "FailedRunning"
  | .FailedStopping => "FailedStopping"

/-- Modelled from the spec: strum's derived `FromStr` parses exactly the
declared variant names and fails with `VariantNotFound` otherwise (the
repository test `test_invalid_status_conversion` expects `VariantNotFound`
for the string "InvalidStatus"). -/
def IndexerStatus.from_str (s : String) : Except ParseError IndexerStatus :=
  match s with
  | "Created" => .ok .Created
  | "Running" => .ok .Running
  | "Stopped" => .ok .Stopped
  | "FailedRunning" => .ok .FailedRunning
  | "FailedStopping" => .ok .FailedStopping
  | _ => .error .VariantNotFound

/-- Modelled from the spec: strum's derived `Display` for `IndexerType`. -/
def IndexerType.toText : IndexerType → String
  | .Webhook => "Webhook"
  | .Other => "Other"

/-- Modelled from the spec: strum's derived `FromStr` for `IndexerType`; the
repository test `test_invalid_type_conversion` expects `VariantNotFound` for
the string "InvalidType". -/
def IndexerType.from_str (s : String) : Except ParseError IndexerType :=
  match s with
  | "Webhook" => .ok .Webhook
  | "Other" => .ok .Other
  | _ => .error .VariantNotFound

/-- The database row type `IndexerDb` (indexer_repository.rs lines 15-24):
`id: Uuid`, `status: String`, `indexer_type: String`,
`process_id: Option<i64>`, `target_url: String`. -/
structure IndexerDb where
  id : Nat
  status : String
  indexer_type : String
  process_id : Option Int
  target_url : String
deriving DecidableEq, Repr

/-- `IndexerFilter` (indexer_repository.rs lines 26-29). -/
structure IndexerFilter where
  status : Option String
deriving DecidableEq, Repr

/-- `NewIndexerDb` (indexer_repository.rs lines 31-38): no `process_id`
field, so an insert leaves the nullable column at its `NULL` default. -/
structure NewIndexerDb where
  id : Nat
  status : String
  indexer_type : String
  target_url : String
deriving DecidableEq, Repr

/-- `UpdateIndexerStatusDb` (indexer_repository.rs lines 40-45). -/
structure UpdateIndexerStatusDb where
  id : Nat
  status : String
deriving DecidableEq, Repr

/-- `UpdateIndexerStatusAndProcessIdDb` (indexer_repository.rs lines 47-53):
`process_id` is a mandatory `i64`, not an `Option`. -/
structure UpdateIndexerStatusAndProcessIdDb where
  id : Nat
  status : String
  process_id : Int
deriving DecidableEq, Repr

/-- The domain model `IndexerModel` (fields as used by
`TryFrom<IndexerDb> for IndexerModel`, indexer_repository.rs lines 193-205). -/
structure IndexerModel where
  id : Nat
  status : IndexerStatus
  process_id : Option Int
  indexer_type : IndexerType
  target_url : String
deriving DecidableEq, Repr

/-- `InfraError` (src/infra/errors.rs), together with the `ParseError`
variant that `indexer_repository.rs` wraps parse failures in
(`map_err(InfraError::ParseError)`).  Payloads of the diesel/pool variants
are dropped: nothing in the claims inspects them. -/
inductive InfraError where
  | InternalServerError
  | NotFound
  | PoolError
  | ParseError (e : ParseError)
deriving DecidableEq, Repr

/-- `TryFrom<IndexerDb> for IndexerModel` (indexer_repository.rs lines
193-205): parse the stored status and type strings, keep the other columns. -/
def tryFromIndexerDb (value : IndexerDb) : Except ParseError IndexerModel := do
  let status ← IndexerStatus.from_str value.status
  let indexer_type ← IndexerType.from_str value.indexer_type
  pure { id := value.id, status := status, process_id := value.process_id,
         indexer_type := indexer_type, target_url := value.target_url }

/-- `TryFrom<NewIndexerDb> for IndexerModel` (indexer_repository.rs lines
178-191): build an `IndexerDb` with `process_id: None` and convert it. -/
def tryFromNewIndexerDb (value : NewIndexerDb) : Except ParseError IndexerModel :=
  tryFromIndexerDb { id := value.id, status := value.status,
                     indexer_type := value.indexer_type,
                     target_url := value.target_url, process_id := none }

/-- `_insert` (indexer_repository.rs lines 103-114): `INSERT ... RETURNING`
appends the new row (with `process_id` at its `NULL` default) and converts
the returned row, wrapping a conversion failure in `InfraError::ParseError`. -/
def insertIndexer (db : List IndexerDb) (new_indexer : NewIndexerDb) :
    Except InfraError IndexerModel × List IndexerDb :=
  let row : IndexerDb :=
    { id := new_indexer.id, status := new_indexer.status,
      indexer_type := new_indexer.indexer_type, process_id := none,
      target_url := new_indexer.target_url }
  (((tryFromIndexerDb row).mapError InfraError.ParseError), db ++ [row])

/-- `get` (indexer_repository.rs lines 116-127): `filter(id.eq(id))` with
`get_result`, which yields diesel `NotFound` when no row matches, then the
`TryFrom<IndexerDb>` conversion wrapped in `InfraError::ParseError`. -/
def getIndexer (db : List IndexerDb) (id : Nat) : Except InfraError IndexerModel :=
  match db.find? (fun r => r.id = id) with
  | none => .error .NotFound
  | some r => (tryFromIndexerDb r).mapError InfraError.ParseError

/-- The rows selected by `get_all`'s query (indexer_repository.rs lines
131-135): all rows, optionally filtered by the stored status string. -/
def selectedRows (db : List IndexerDb) (filter : IndexerFilter) : List IndexerDb :=
  match filter.status with
  | some s => db.filter (fun r => r.status = s)
  | none => db

/-- `get_all` (indexer_repository.rs lines 129-144): load the selected rows
and convert each via `TryFrom<IndexerDb>`, collected as
`Result<Vec<IndexerModel>, ParseError>` (the first conversion failure aborts
the whole call), wrapped in `InfraError::ParseError`. -/
def get_all (db : List IndexerDb) (filter : IndexerFilter) :
    Except InfraError (List IndexerModel) :=
  ((selectedRows db filter).mapM tryFromIndexerDb).mapError InfraError.ParseError

/-- The effect of a SQL `UPDATE indexers SET ... WHERE id = $id` on the
table: apply the column assignment `f` to every row whose id matches (the
id is the primary key, so at most one row does). -/
def updatedTable (db : List IndexerDb) (id : Nat) (f : IndexerDb → IndexerDb) :
    List IndexerDb :=
  db.map fun r => if r.id = id then f r else r

/-- `update_status` (indexer_repository.rs lines 146-160):
`diesel::update(indexers::table).filter(id.eq(indexer.id))
.set(status.eq(indexer.status))` — the filter is on the id only, there is no
condition on the current status; `get_result` returns the updated row (diesel
`NotFound` when no row matched), converted via `TryFrom<IndexerDb>`. -/
def update_status (db : List IndexerDb) (indexer : UpdateIndexerStatusDb) :
    Except InfraError IndexerModel × List IndexerDb :=
  match (updatedTable db indexer.id fun r => { r with status := indexer.status }).find?
      (fun r => r.id = indexer.id) with
  | none => (.error .NotFound,
      updatedTable db indexer.id fun r => { r with status := indexer.status })
  | some r => ((tryFromIndexerDb r).mapError InfraError.ParseError,
      updatedTable db indexer.id fun r => { r with status := indexer.status })

/-- `update_status_and_process_id` (indexer_repository.rs lines 162-176):
like `update_status` but also sets `process_id` to the given mandatory `i64`
(so the stored column becomes `Some`); the filter is again on the id only. -/
def update_status_and_process_id (db : List IndexerDb)
    (indexer : UpdateIndexerStatusAndProcessIdDb) :
    Except InfraError IndexerModel × List IndexerDb :=
  match (updatedTable db indexer.id fun r =>
      { r with status := indexer.status, process_id := some indexer.process_id }).find?
      (fun r => r.id = indexer.id) with
  | none => (.error .NotFound,
      updatedTable db indexer.id fun r =>
        { r with status := indexer.status, process_id := some indexer.process_id })
  | some r => ((tryFromIndexerDb r).mapError InfraError.ParseError,
      updatedTable db indexer.id fun r =>
        { r with status := indexer.status, process_id := some indexer.process_id })

/-- Modelled from the spec: the domain error type `IndexerError` lives in
`src/domain/models/indexer.rs`, which is not under the available source
tree; the spec's taxonomy (§7) distinguishes process-stop failures and
infrastructure failures, which is all the `stop` contract needs. -/
inductive IndexerError where
  | FailedToStopIndexer
  | Infra (e : InfraError)
deriving DecidableEq, Repr

/-- The `Indexer` trait (src/handlers/indexers/indexer_types/mod.rs lines
5-9), embedded as a structure of the three capability functions with the
source's types: `start` returns a bare `u32` process id — its codomain has
no error alternative — while `stop` returns `Result<(), IndexerError>` and
`is_running` returns `bool`. -/
structure Indexer where
  start : IndexerModel → Nat
  stop : IndexerModel → Except IndexerError Unit
  is_running : IndexerModel → Bool

/-- Identifies which handler value the registry returns;
`webhook::WebhookIndexer` is the unit-struct value returned for the
`Webhook` arm (the behaviour behind it lives in `webhook.rs`, which is not
under the available source tree and is not needed for resolution). -/
inductive HandlerId where
  | WebhookIndexer
deriving DecidableEq, Repr

/-- A runtime panic, the effect of the `unimplemented!` macro: embedding of
the fallible outcome of code that aborts instead of returning. -/
inductive Panic where
  | unimplemented (msg : String)
deriving DecidableEq, Repr

/-- `get_indexer_handler` (src/handlers/indexers/indexer_types/mod.rs lines
11-16): the `Webhook` arm returns `webhook::WebhookIndexer`; the catch-all
arm is `unimplemented!("Indexer type ... is not implemented", ...)`, a
runtime panic, embedded as the `Except` error alternative. -/
def get_indexer_handler (indexer_type : IndexerType) : Except Panic HandlerId :=
  match indexer_type with
  | .Webhook => .ok .WebhookIndexer
  | t => .error (.unimplemented
      ("Indexer type " ++ t.toText ++ " is not implemented"))

/-- HTTP methods used by the router. -/
inductive Method where
  | GET
  | POST
deriving DecidableEq, Repr

/-- Dispatch targets of the router in src/routes.rs: the registered handler
functions plus the 404 fallback (`handler_404`). -/
inductive RouteTarget where
  | root
  | createPost
  | listPosts
  | getPost
  | createIndexer
  | notFound404
deriving DecidableEq, Repr

/-- `posts_routes` (src/routes.rs lines 26-32): `POST / → create_post`,
`GET / → list_posts`, `GET /:id → get_post`, matched against the path
remainder after the `/v1/posts` nest prefix (split into segments). -/
def posts_routes (m : Method) (rest : List String) : Option RouteTarget :=
  match m, rest with
  | .POST, [] => some .createPost
  | .GET, [] => some .listPosts
  | .GET, [_] => some .getPost
  | _, _ => none

/-- `indexers_routes` (src/routes.rs lines 34-36): the single route
`POST / → create_indexer`; no other path under `/v1/indexers` is
registered. -/
def indexers_routes (m : Method) (rest : List String) : Option RouteTarget :=
  match m, rest with
  | .POST, [] => some .createIndexer
  | _, _ => none

/-- `app_router` (src/routes.rs lines 10-16): `GET / → root`, the two
nested routers under `/v1/posts` and `/v1/indexers`, and every unmatched
request — including one whose path falls inside a nest but matches none of
its routes — goes to the `handler_404` fallback.  Paths are lists of
segments. -/
def app_router (m : Method) (path : List String) : RouteTarget :=
  match m, path with
  | .GET, [] => .root
  | _, "v1" :: "posts" :: rest => (posts_routes m rest).getD .notFound404
  | _, "v1" :: "indexers" :: rest => (indexers_routes m rest).getD .notFound404
  | _, _ => .notFound404

/-- The spec's lifecycle error taxonomy (§7), used by the orchestrator
operations modelled below. -/
inductive LifecycleError where
  | PreconditionFailed
  | Infra (e : InfraError)
deriving DecidableEq, Repr

/-- A call made to an indexer type handler, recorded so that "no
type-handler call happens" is a provable statement about an operation. -/
inductive HandlerCall where
  | startCall (id : Nat)
  | stopCall (id : Nat)
  | isRunningCall (id : Nat)
deriving DecidableEq, Repr

/-- Modelled from the spec: the orchestrator's `start` operation
(`start_indexer`) is not under the available source tree; per §4.2 it loads
the indexer, validates that the current status is `Created` (any other
status is a precondition failure that leaves the store untouched),
delegates to the type handler's `start` to obtain a process id, and
persists `Created → Running` with the new `process_id` through the source's
`update_status_and_process_id`.  The handler's spawn is passed in as a
function so the statement quantifies over every type handler. -/
def start_indexer (spawn : IndexerModel → Nat) (db : List IndexerDb) (id : Nat) :
    Except LifecycleError IndexerModel × List IndexerDb × List HandlerCall :=
  match getIndexer db id with
  | .error e => (.error (.Infra e), db, [])
  | .ok m =>
    if m.status = .Created then
      let pid := spawn m
      let (res, db2) := update_status_and_process_id db
        { id := id, status := IndexerStatus.Running.toText, process_id := pid }
      (res.mapError LifecycleError.Infra, db2, [.startCall id])
    else
      (.error .PreconditionFailed, db, [])

/-- Modelled from the spec: the orchestrator's `fail` operation
(`fail_indexer`, the failure-queue consumer's action) is not under the
available source tree; per §4.2 it validates that the current status is
`Running` and persists `Running → FailedRunning` through the source's
`update_status`, with no type-handler call (the process is already gone). -/
def fail_indexer (db : List IndexerDb) (id : Nat) :
    Except LifecycleError IndexerModel × List IndexerDb × List HandlerCall :=
  match getIndexer db id with
  | .error e => (.error (.Infra e), db, [])
  | .ok m =>
    if m.status = .Running then
      let (res, db2) := update_status db
        { id := id, status := IndexerStatus.FailedRunning.toText }
      (res.mapError LifecycleError.Infra, db2, [])
    else
      (.error .PreconditionFailed, db, [])

/-! ## Helper lemmas -/

/-- Inversion for `Except.mapError`: an `ok` result is untouched. -/
theorem mapError_ok_iff {ε ε' α : Type} (f : ε → ε') (e : Except ε α) (a : α) :
    e.mapError f = .ok a ↔ e = .ok a := by
  cases e <;> simp [Except.mapError]

/-- Every status round-trips through its stored text representation. -/
theorem status_text_roundtrip (st : IndexerStatus) :
    IndexerStatus.from_str st.toText = .ok st := by
  cases st <;> rfl

/-- Every indexer type round-trips through its stored text representation. -/
theorem type_text_roundtrip (ty : IndexerType) :
    IndexerType.from_str ty.toText = .ok ty := by
  cases ty <;> rfl

/-- Reduction of a bind on a successful `Except` value. -/
theorem except_bind_ok {α β ε : Type} (a : α) (f : α → Except ε β) :
    (Except.ok a >>= f) = f a := rfl

/-- Reduction of a bind on a failed `Except` value. -/
theorem except_bind_error {α β ε : Type} (e : ε) (f : α → Except ε β) :
    ((Except.error e : Except ε α) >>= f) = .error e := rfl

/-- Reduction of `pure` in the `Except` monad. -/
theorem except_pure_eq {α ε : Type} (a : α) :
    (pure a : Except ε α) = .ok a := rfl

/-- Computation rule for `TryFrom<IndexerDb>`: when both stored strings
parse, the conversion succeeds and copies the remaining columns. -/
theorem tryFromIndexerDb_eq_ok (r : IndexerDb) (st : IndexerStatus) (ty : IndexerType)
    (hs : IndexerStatus.from_str r.status = .ok st)
    (ht : IndexerType.from_str r.indexer_type = .ok ty) :
    tryFromIndexerDb r = .ok { id := r.id, status := st, process_id := r.process_id,
                               indexer_type := ty, target_url := r.target_url } := by
  unfold tryFromIndexerDb
  rw [hs, except_bind_ok, ht, except_bind_ok, except_pure_eq]

/-- Inversion for a successful `TryFrom<IndexerDb>` conversion. -/
theorem tryFromIndexerDb_ok_inv (r : IndexerDb) (m : IndexerModel)
    (h : tryFromIndexerDb r = .ok m) :
    IndexerStatus.from_str r.status = .ok m.status ∧
    IndexerType.from_str r.indexer_type = .ok m.indexer_type ∧
    m.id = r.id ∧ m.process_id = r.process_id ∧ m.target_url = r.target_url := by
  unfold tryFromIndexerDb at h
  cases hs : IndexerStatus.from_str r.status <;> rw [hs] at h
  · rw [except_bind_error] at h
    exact Except.noConfusion h
  · rw [except_bind_ok] at h
    cases ht : IndexerType.from_str r.indexer_type <;> rw [ht] at h
    · rw [except_bind_error] at h
      exact Except.noConfusion h
    · rw [except_bind_ok, except_pure_eq] at h
      cases h
      simp [hs, ht]

/-- An id-preserving per-row update commutes with looking up the row by id:
the updated table's match for `i` is the update of the original match. -/
theorem find_of_update (db : List IndexerDb) (i : Nat) (f : IndexerDb → IndexerDb)
    (hf : ∀ r, (f r).id = r.id) :
    (updatedTable db i f).find? (fun r => r.id = i) =
      (db.find? (fun r => r.id = i)).map f := by
  induction db with
  | nil => rfl
  | cons h t ih =>
    by_cases hid : h.id = i
    · simp [updatedTable, List.find?_cons, hid, hf]
    · simp only [updatedTable, List.map_cons] at ih ⊢
      simp [List.find?_cons, hid, ih]

/-- A `mapM` in the `Except` monad that succeeds converts every element:
the output list has the input's length. -/
theorem except_mapM_ok_length {α β ε : Type} (f : α → Except ε β) (l : List α) :
    ∀ xs, l.mapM f = .ok xs → xs.length = l.length := by
  induction l with
  | nil =>
    intro xs h
    rw [List.mapM_nil, except_pure_eq] at h
    cases h
    rfl
  | cons a t ih =>
    intro xs h
    rw [List.mapM_cons] at h
    cases hf : f a <;> rw [hf] at h
    · rw [except_bind_error] at h
      exact Except.noConfusion h
    · rw [except_bind_ok] at h
      cases hm : t.mapM f <;> rw [hm] at h
      · rw [except_bind_error] at h
        exact Except.noConfusion h
      · rw [except_bind_ok, except_pure_eq] at h
        cases h
        simp [ih _ hm]

/-- A `mapM` in the `Except` monad fails whenever any element of the list
fails to convert (the reported error is the first one encountered). -/
theorem except_mapM_error_of_mem {α β ε : Type} (f : α → Except ε β) :
    ∀ (l : List α) (a : α), a ∈ l → ∀ e : ε, f a = .error e →
      ∃ e2, l.mapM f = .error e2 := by
  intro l
  induction l with
  | nil => intro a ha; cases ha
  | cons b t ih =>
    intro a ha e he
    rw [List.mapM_cons]
    cases hb : f b
    · exact ⟨_, by rw [except_bind_error]⟩
    · rw [except_bind_ok]
      rcases List.mem_cons.mp ha with h1 | h2
      · subst h1
        rw [he] at hb
        exact Except.noConfusion hb
      · obtain ⟨e2, h2'⟩ := ih a h2 e he
        rw [h2', except_bind_error]
        exact ⟨e2, rfl⟩

/-- Full characterisation of `update_status` when a row with the id exists:
the table is rewritten row-wise (status overwritten on the matching row, no
condition on the current status) and the returned model is the conversion of
the updated matching row. -/
theorem update_status_eq (db : List IndexerDb) (u : UpdateIndexerStatusDb)
    (r : IndexerDb) (h1 : db.find? (fun x => x.id = u.id) = some r) :
    update_status db u =
      ((tryFromIndexerDb { r with status := u.status }).mapError InfraError.ParseError,
       db.map (fun x => if x.id = u.id then { x with status := u.status } else x)) := by
  have hfind := find_of_update db u.id (fun x => { x with status := u.status })
    (fun _ => rfl)
  rw [h1] at hfind
  unfold update_status
  rw [hfind]
  rfl

/-- The table produced by `update_status`, with no assumption that the row
exists. -/
theorem update_status_table (db : List IndexerDb) (u : UpdateIndexerStatusDb) :
    (update_status db u).2 =
      updatedTable db u.id (fun x => { x with status := u.status }) := by
  unfold update_status
  split <;> rfl

/-- Full characterisation of `update_status_and_process_id` when a row with
the id exists. -/
theorem update_status_and_process_id_eq (db : List IndexerDb)
    (u : UpdateIndexerStatusAndProcessIdDb) (r : IndexerDb)
    (h1 : db.find? (fun x => x.id = u.id) = some r) :
    update_status_and_process_id db u =
      ((tryFromIndexerDb
          { r with status := u.status, process_id := some u.process_id }).mapError
            InfraError.ParseError,
       db.map (fun x => if x.id = u.id then
          { x with status := u.status, process_id := some u.process_id } else x)) := by
  have hfind := find_of_update db u.id
    (fun x => { x with status := u.status, process_id := some u.process_id })
    (fun _ => rfl)
  rw [h1] at hfind
  unfold update_status_and_process_id
  rw [hfind]
  rfl

/-- The table produced by `update_status_and_process_id`, with no assumption
that the row exists. -/
theorem update_status_and_process_id_table (db : List IndexerDb)
    (u : UpdateIndexerStatusAndProcessIdDb) :
    (update_status_and_process_id db u).2 =
      updatedTable db u.id (fun x =>
        { x with status := u.status, process_id := some u.process_id }) := by
  unfold update_status_and_process_id
  split <;> rfl

/-- Inversion for a successful repository `get`. -/
theorem getIndexer_ok_inv (db : List IndexerDb) (id : Nat) (m : IndexerModel)
    (h : getIndexer db id = .ok m) :
    ∃ r, db.find? (fun x => x.id = id) = some r ∧ tryFromIndexerDb r = .ok m := by
  unfold getIndexer at h
  cases hf : db.find? (fun x => x.id = id) <;> rw [hf] at h
  · exact Except.noConfusion h
  · exact ⟨_, rfl, (mapError_ok_iff _ _ _).mp h⟩

/-- When a row with the id exists and both the new status string and the
row's stored type parse, `update_status` returns the converted updated row —
whatever the row's current status was. -/
theorem update_status_result_ok (db : List IndexerDb) (u : UpdateIndexerStatusDb)
    (r : IndexerDb) (st : IndexerStatus) (ty : IndexerType)
    (h1 : db.find? (fun x => x.id = u.id) = some r)
    (hs : IndexerStatus.from_str u.status = .ok st)
    (ht : IndexerType.from_str r.indexer_type = .ok ty) :
    (update_status db u).1 =
      .ok { id := r.id, status := st, process_id := r.process_id,
            indexer_type := ty, target_url := r.target_url } := by
  rw [update_status_eq db u r h1,
      tryFromIndexerDb_eq_ok { r with status := u.status } st ty hs ht]
  rfl

/-- The stored row for the id after `update_status`. -/
theorem update_status_find (db : List IndexerDb) (u : UpdateIndexerStatusDb)
    (r : IndexerDb) (h1 : db.find? (fun x => x.id = u.id) = some r) :
    ((update_status db u).2).find? (fun x => x.id = u.id) =
      some { r with status := u.status } := by
  rw [update_status_table,
      find_of_update db u.id (fun x => { x with status := u.status }) (fun _ => rfl),
      h1]
  rfl

/-- When a row with the id exists and both the new status string and the
row's stored type parse, `update_status_and_process_id` returns the
converted updated row, whose `process_id` is `Some` of the given value. -/
theorem update_status_and_process_id_result_ok (db : List IndexerDb)
    (u : UpdateIndexerStatusAndProcessIdDb) (r : IndexerDb)
    (st : IndexerStatus) (ty : IndexerType)
    (h1 : db.find? (fun x => x.id = u.id) = some r)
    (hs : IndexerStatus.from_str u.status = .ok st)
    (ht : IndexerType.from_str r.indexer_type = .ok ty) :
    (update_status_and_process_id db u).1 =
      .ok { id := r.id, status := st, process_id := some u.process_id,
            indexer_type := ty, target_url := r.target_url } := by
  rw [update_status_and_process_id_eq db u r h1,
      tryFromIndexerDb_eq_ok { r with status := u.status, process_id := some u.process_id }
        st ty hs ht]
  rfl

/-- The stored row for the id after `update_status_and_process_id`. -/
theorem update_status_and_process_id_find (db : List IndexerDb)
    (u : UpdateIndexerStatusAndProcessIdDb) (r : IndexerDb)
    (h1 : db.find? (fun x => x.id = u.id) = some r) :
    ((update_status_and_process_id db u).2).find? (fun x => x.id = u.id) =
      some { r with status := u.status, process_id := some u.process_id } := by
  rw [update_status_and_process_id_table,
      find_of_update db u.id
        (fun x => { x with status := u.status, process_id := some u.process_id })
        (fun _ => rfl),
      h1]
  rfl

/-! ## Claim theorems -/

/-- Claim C7: the string encoding of status and indexer type at the
repository boundary is round-trip safe — parsing the stored text of any
enumeration value yields the same value back, parsing an unrecognized stored
string ("InvalidStatus"/"InvalidType", the repository tests' inputs) fails
with `VariantNotFound` instead of silently defaulting to some variant, and
the `TryFrom<IndexerDb>` conversion applied to a row whose strings are the
stored text of enumeration values returns exactly those values. -/
theorem status_type_string_roundtrip :
    (∀ st : IndexerStatus, IndexerStatus.from_str st.toText = .ok st) ∧
    (∀ ty : IndexerType, IndexerType.from_str ty.toText = .ok ty) ∧
    IndexerStatus.from_str "InvalidStatus" = .error .VariantNotFound ∧
    IndexerType.from_str "InvalidType" = .error .VariantNotFound ∧
    (∀ (i : Nat) (st : IndexerStatus) (ty : IndexerType) (p : Option Int) (u : String),
      tryFromIndexerDb
          { id := i, status := st.toText, indexer_type := ty.toText,
            process_id := p, target_url := u } =
        .ok { id := i, status := st, process_id := p, indexer_type := ty,
              target_url := u }) := by
  refine ⟨status_text_roundtrip, type_text_roundtrip, rfl, rfl, ?_⟩
  intro i st ty p u
  exact tryFromIndexerDb_eq_ok _ st ty (status_text_roundtrip st) (type_text_roundtrip ty)

/-- Claim C8 (code-bug evidence): the router registers only
`POST /v1/indexers` under the indexers nest, so `POST /v1/indexers/start/{id}`
and `POST /v1/indexers/stop/{id}` — which the repository's own tests expect
to answer 200 — are dispatched to the `handler_404` fallback and not to any
start/stop handler. -/
theorem start_stop_routes_fall_to_404 :
    app_router .POST
        ["v1", "indexers", "start", "11111111-2222-3333-4444-555555555555"] =
      .notFound404 ∧
    app_router .POST
        ["v1", "indexers", "stop", "11111111-2222-3333-4444-555555555555"] =
      .notFound404 ∧
    app_router .POST ["v1", "indexers"] = .createIndexer :=
  ⟨rfl, rfl, rfl⟩

/-- Claim C5 (code-bug evidence): the `Indexer` trait's `start` has codomain
`u32`, so for every type handler and every indexer the call yields a plain
process number — the interface offers no error alternative through which a
launch failure (missing binary, malformed script) could be signalled,
unlike `stop`, whose codomain is `Result<(), IndexerError>`. -/
theorem indexer_trait_start_has_no_error_channel :
    ∀ (h : Indexer) (m : IndexerModel), ∃ pid : Nat, h.start m = pid :=
  fun h m => ⟨h.start m, rfl⟩

/-- Claim C4 counterexample: resolving a declared non-`Webhook` indexer type
hits the registry's catch-all arm, which is `unimplemented!` — a runtime
panic raised while serving the request — and no `ConfigurationError` value
is produced. -/
theorem get_indexer_handler_panics_on_unhandled_type :
    get_indexer_handler .Other =
      .error (.unimplemented "Indexer type Other is not implemented") := rfl

/-- Claim C4 amended: `get_indexer_handler` returns the `WebhookIndexer`
handler for the `Webhook` type; for every other declared type it panics at
request time via `unimplemented!` instead of signalling a configuration
error. -/
theorem get_indexer_handler_webhook_or_panic (t : IndexerType) :
    (t = .Webhook → get_indexer_handler t = .ok .WebhookIndexer) ∧
    (t ≠ .Webhook → ∃ msg, get_indexer_handler t = .error (.unimplemented msg)) := by
  cases t
  · exact ⟨fun _ => rfl, fun hne => absurd rfl hne⟩
  · exact ⟨fun he => IndexerType.noConfusion he, fun _ => ⟨_, rfl⟩⟩

/-- Claim C4 witness: the amended statement instantiated at the `Webhook`
type and at the non-`Webhook` type. -/
theorem get_indexer_handler_webhook_or_panic_witness :
    get_indexer_handler .Webhook = .ok .WebhookIndexer ∧
    ∃ msg, get_indexer_handler .Other = .error (.unimplemented msg) :=
  ⟨(get_indexer_handler_webhook_or_panic .Webhook).1 rfl,
   (get_indexer_handler_webhook_or_panic .Other).2
     (fun h => IndexerType.noConfusion h)⟩

/-- Claim C1 counterexample: on a table holding one indexer with id 7 in
status "Running", a stop-style transition (to `Stopped`, via
`update_status`) and a fail-style transition (to `FailedRunning`) issued
one after the other — the race the claim says at most one of can win —
both succeed: the second executes while the current status is already
`Stopped`, not its `Running` precondition, yet it still returns `Ok` and
overwrites the first transition.  A start-style
`update_status_and_process_id` (to `Running` with process id 43) issued
against the stopped table likewise succeeds although its `Created`
precondition does not hold. -/
theorem racing_status_updates_both_succeed :
    (update_status
        [{ id := 7, status := "Running", indexer_type := "Webhook",
           process_id := some 42, target_url := "https://example.test/hook" }]
        { id := 7, status := "Stopped" }).1 =
      .ok { id := 7, status := .Stopped, process_id := some 42,
            indexer_type := .Webhook, target_url := "https://example.test/hook" } ∧
    (update_status
        (update_status
          [{ id := 7, status := "Running", indexer_type := "Webhook",
             process_id := some 42, target_url := "https://example.test/hook" }]
          { id := 7, status := "Stopped" }).2
        { id := 7, status := "FailedRunning" }).1 =
      .ok { id := 7, status := .FailedRunning, process_id := some 42,
            indexer_type := .Webhook, target_url := "https://example.test/hook" } ∧
    (update_status_and_process_id
        (update_status
          [{ id := 7, status := "Running", indexer_type := "Webhook",
             process_id := some 42, target_url := "https://example.test/hook" }]
          { id := 7, status := "Stopped" }).2
        { id := 7, status := "Running", process_id := 43 }).1 =
      .ok { id := 7, status := .Running, process_id := some 43,
            indexer_type := .Webhook, target_url := "https://example.test/hook" } :=
  ⟨rfl, rfl, rfl⟩

/-- Claim C1 amended: both status-changing repository operations filter on
the indexer id alone and overwrite the status (and, for
`update_status_and_process_id`, the process id) unconditionally — whenever
a row with the id exists (and its stored type string parses),
`update_status` succeeds for any target status regardless of the row's
current status, so of two racing transitions on the same id both succeed
and the second overwrites the first, and `update_status_and_process_id`
likewise succeeds for any target status and process id regardless of the
row's current status; no single-row conditional update on the current
status is performed by either operation. -/
theorem update_status_overwrites_unconditionally
    (db : List IndexerDb) (id : Nat) (r : IndexerDb) (ty : IndexerType)
    (s1 s2 s3 : IndexerStatus) (p : Int)
    (h1 : db.find? (fun x => x.id = id) = some r)
    (h2 : IndexerType.from_str r.indexer_type = .ok ty) :
    ∃ m1 m2 m3,
      (update_status db { id := id, status := s1.toText }).1 = .ok m1 ∧
      m1.status = s1 ∧
      (update_status (update_status db { id := id, status := s1.toText }).2
          { id := id, status := s2.toText }).1 = .ok m2 ∧
      m2.status = s2 ∧
      (update_status_and_process_id db
          { id := id, status := s3.toText, process_id := p }).1 = .ok m3 ∧
      m3.status = s3 ∧ m3.process_id = some p := by
  have e1 := update_status_result_ok db { id := id, status := s1.toText } r s1 ty h1
    (status_text_roundtrip s1) h2
  have f1 := update_status_find db { id := id, status := s1.toText } r h1
  have e2 := update_status_result_ok _ { id := id, status := s2.toText }
    { r with status := s1.toText } s2 ty f1 (status_text_roundtrip s2) h2
  have e3 := update_status_and_process_id_result_ok db
    { id := id, status := s3.toText, process_id := p } r s3 ty h1
    (status_text_roundtrip s3) h2
  exact ⟨_, _, _, e1, rfl, e2, rfl, e3, rfl, rfl⟩

/-- Claim C1 witness: the amended statement at a concrete one-row table, a
`Running` row receiving a `Stopped` and then a `FailedRunning` overwrite
through `update_status`, and a `Running`-with-pid-43 overwrite through
`update_status_and_process_id` — all succeeding although the row was never
in the respective transition's precondition status. -/
theorem update_status_overwrites_unconditionally_witness :
    ∃ m1 m2 m3,
      (update_status
          [{ id := 7, status := "Running", indexer_type := "Webhook",
             process_id := some 42, target_url := "u" }]
          { id := 7, status := IndexerStatus.Stopped.toText }).1 = .ok m1 ∧
      m1.status = .Stopped ∧
      (update_status
          (update_status
            [{ id := 7, status := "Running", indexer_type := "Webhook",
               process_id := some 42, target_url := "u" }]
            { id := 7, status := IndexerStatus.Stopped.toText }).2
          { id := 7, status := IndexerStatus.FailedRunning.toText }).1 = .ok m2 ∧
      m2.status = .FailedRunning ∧
      (update_status_and_process_id
          [{ id := 7, status := "Running", indexer_type := "Webhook",
             process_id := some 42, target_url := "u" }]
          { id := 7, status := IndexerStatus.Running.toText,
            process_id := 43 }).1 = .ok m3 ∧
      m3.status = .Running ∧ m3.process_id = some 43 :=
  update_status_overwrites_unconditionally
    [{ id := 7, status := "Running", indexer_type := "Webhook",
       process_id := some 42, target_url := "u" }]
    7 { id := 7, status := "Running", indexer_type := "Webhook",
        process_id := some 42, target_url := "u" }
    .Webhook .Stopped .FailedRunning .Running 43 rfl rfl

/-- Claim C2 counterexample: a record reached exclusively through the
repository operations — `insert` as `Created`, `update_status_and_process_id`
to `Running` with process id 42 (the start path), then `update_status` to
`Stopped` (the stop path's persistence call) — ends in status `Stopped`
with `process_id` still `Some 42`: the transition to `Stopped` leaves
`process_id` set, because `update_status` cannot clear it. -/
theorem stopped_record_retains_process_id :
    (update_status
        (update_status_and_process_id
          (insertIndexer []
            { id := 7, status := "Created", indexer_type := "Webhook",
              target_url := "https://example.test/hook" }).2
          { id := 7, status := "Running", process_id := 42 }).2
        { id := 7, status := "Stopped" }).1 =
      .ok { id := 7, status := .Stopped, process_id := some 42,
            indexer_type := .Webhook, target_url := "https://example.test/hook" } :=
  rfl

/-- Claim C2 amended: `insert` always stores `process_id = None`, and
`update_status` never modifies `process_id`, so the `None`-side of the
invariant holds at creation, but a record whose stored `process_id` is
`Some p` that is transitioned to `Stopped` through `update_status` (the only
repository transition to `Stopped`, since `update_status_and_process_id`
takes a mandatory process id) still carries `process_id = Some p`: the
claimed invariant "process_id is None while status is Stopped" does not
hold for records reachable through the repository operations. -/
theorem insert_none_and_stop_keeps_process_id :
    (∀ (db : List IndexerDb) (n : NewIndexerDb) (m : IndexerModel),
      (insertIndexer db n).1 = .ok m → m.process_id = none) ∧
    (∀ (db : List IndexerDb) (id : Nat) (r : IndexerDb) (p : Int) (ty : IndexerType),
      db.find? (fun x => x.id = id) = some r →
      r.process_id = some p →
      IndexerType.from_str r.indexer_type = .ok ty →
      ∃ m, (update_status db { id := id, status := IndexerStatus.Stopped.toText }).1 =
          .ok m ∧ m.status = .Stopped ∧ m.process_id = some p) := by
  constructor
  · intro db n m h
    have h2 : tryFromIndexerDb
        { id := n.id, status := n.status, indexer_type := n.indexer_type,
          process_id := none, target_url := n.target_url } = .ok m :=
      (mapError_ok_iff _ _ _).mp h
    exact (tryFromIndexerDb_ok_inv _ _ h2).2.2.2.1
  · intro db id r p ty h1 hp ht
    have e := update_status_result_ok db
      { id := id, status := IndexerStatus.Stopped.toText } r .Stopped ty h1
      (status_text_roundtrip .Stopped) ht
    exact ⟨_, e, rfl, hp⟩

/-- Claim C2 witness: both conjuncts of the amended statement at concrete
inputs — a fresh insert carries no process id, and a concrete `Running` row
with process id 42 moved to `Stopped` still carries `Some 42`. -/
theorem insert_none_and_stop_keeps_process_id_witness :
    ({ id := 7, status := .Created, process_id := none, indexer_type := .Webhook,
       target_url := "u" } : IndexerModel).process_id = none ∧
    ∃ m, (update_status
        [{ id := 7, status := "Running", indexer_type := "Webhook",
           process_id := some 42, target_url := "u" }]
        { id := 7, status := IndexerStatus.Stopped.toText }).1 = .ok m ∧
      m.status = .Stopped ∧ m.process_id = some 42 :=
  ⟨insert_none_and_stop_keeps_process_id.1 []
      { id := 7, status := "Created", indexer_type := "Webhook", target_url := "u" }
      _ rfl,
   insert_none_and_stop_keeps_process_id.2
      [{ id := 7, status := "Running", indexer_type := "Webhook",
         process_id := some 42, target_url := "u" }]
      7 { id := 7, status := "Running", indexer_type := "Webhook",
          process_id := some 42, target_url := "u" }
      42 .Webhook rfl rfl rfl⟩

/-- Claim C9: the update operations rewrite the table row-wise;
`update_status` modifies only the `status` column of the row whose id
matches, leaving `id`, `indexer_type`, `target_url` and `process_id` of
every row (matching or not) unchanged; `update_status_and_process_id`
likewise touches only `status` and `process_id` and always stores `Some` of
its mandatory process id — so neither operation ever clears a previously
set `process_id`. -/
theorem update_status_modifies_only_status (db : List IndexerDb)
    (u : UpdateIndexerStatusDb) (u2 : UpdateIndexerStatusAndProcessIdDb) :
    List.Forall₂ (fun r r2 =>
        r2.id = r.id ∧ r2.indexer_type = r.indexer_type ∧
        r2.target_url = r.target_url ∧ r2.process_id = r.process_id ∧
        r2.status = if r.id = u.id then u.status else r.status)
      db (update_status db u).2 ∧
    List.Forall₂ (fun r r2 =>
        r2.id = r.id ∧ r2.indexer_type = r.indexer_type ∧
        r2.target_url = r.target_url ∧
        r2.process_id = (if r.id = u2.id then some u2.process_id else r.process_id) ∧
        r2.status = if r.id = u2.id then u2.status else r.status)
      db (update_status_and_process_id db u2).2 := by
  constructor
  · rw [update_status_table]
    unfold updatedTable
    rw [List.forall₂_map_right_iff, List.forall₂_same]
    intro x _
    by_cases h : x.id = u.id <;> simp [h]
  · rw [update_status_and_process_id_table]
    unfold updatedTable
    rw [List.forall₂_map_right_iff, List.forall₂_same]
    intro x _
    by_cases h : x.id = u2.id <;> simp [h]

/-- Claim C10 counterexample: with a stored table holding one malformed row
(status "Garbage", which does not parse) and one well-formed `Created` row,
a `get_all` call whose status filter selects only "Created" returns `Ok`
with the well-formed record — a list that skips the malformed stored row —
rather than a `ParseError` for the whole call. -/
theorem get_all_returns_records_despite_malformed_row :
    tryFromIndexerDb
        { id := 1, status := "Garbage", indexer_type := "Webhook",
          process_id := none, target_url := "u" } = .error .VariantNotFound ∧
    get_all
        [{ id := 1, status := "Garbage", indexer_type := "Webhook",
           process_id := none, target_url := "u" },
         { id := 2, status := "Created", indexer_type := "Webhook",
           process_id := none, target_url := "u" }]
        { status := some "Created" } =
      .ok [{ id := 2, status := .Created, process_id := none,
             indexer_type := .Webhook, target_url := "u" }] :=
  ⟨rfl, rfl⟩

/-- Claim C10 amended: if any row selected by the call's query (any stored
row when no status filter is given, any matching row otherwise) has a
status or indexer_type string that does not parse, then `get_all` returns a
`ParseError` for the whole call and yields no records; a successful call
converts every selected row, so it never returns a partial list that skips
a malformed selected row.  A malformed row that the status filter excludes
is outside the call's query and does not affect the result. -/
theorem get_all_rejects_malformed_selected_rows (db : List IndexerDb)
    (filter : IndexerFilter) :
    (∀ r ∈ selectedRows db filter, ∀ e, tryFromIndexerDb r = .error e →
      ∃ e2, get_all db filter = .error (.ParseError e2)) ∧
    (∀ l, get_all db filter = .ok l → l.length = (selectedRows db filter).length) := by
  constructor
  · intro r hr e he
    obtain ⟨e2, h2⟩ := except_mapM_error_of_mem tryFromIndexerDb _ r hr e he
    refine ⟨e2, ?_⟩
    unfold get_all
    rw [h2]
    rfl
  · intro l hl
    unfold get_all at hl
    cases hm : (selectedRows db filter).mapM tryFromIndexerDb <;> rw [hm] at hl
    · exact Except.noConfusion hl
    · cases (mapError_ok_iff _ _ _).mp hl
      exact except_mapM_ok_length _ _ _ hm

/-- Claim C10 witness: the amended statement at concrete inputs — an
unfiltered call over a table containing a malformed row fails with a
`ParseError`, and a successful unfiltered call converts its whole
selection. -/
theorem get_all_rejects_malformed_selected_rows_witness :
    (∃ e2, get_all
        [{ id := 1, status := "Garbage", indexer_type := "Webhook",
           process_id := none, target_url := "u" }]
        { status := none } = .error (.ParseError e2)) ∧
    ([{ id := 2, status := .Created, process_id := none, indexer_type := .Webhook,
        target_url := "u" }] : List IndexerModel).length =
      (selectedRows
        [{ id := 2, status := "Created", indexer_type := "Webhook",
           process_id := none, target_url := "u" }]
        { status := none }).length :=
  ⟨(get_all_rejects_malformed_selected_rows
      [{ id := 1, status := "Garbage", indexer_type := "Webhook",
         process_id := none, target_url := "u" }]
      { status := none }).1
      { id := 1, status := "Garbage", indexer_type := "Webhook",
        process_id := none, target_url := "u" }
      (by simp [selectedRows]) .VariantNotFound rfl,
   (get_all_rejects_malformed_selected_rows
      [{ id := 2, status := "Created", indexer_type := "Webhook",
         process_id := none, target_url := "u" }]
      { status := none }).2
      [{ id := 2, status := .Created, process_id := none, indexer_type := .Webhook,
         target_url := "u" }] rfl⟩

/-- Claim C3: the orchestrator's start operation succeeds only when the
loaded indexer's current status is `Created`: from any other status —
`Running` included, so a duplicate start message cannot spawn a second
process — it returns `PreconditionFailed`, performs no type-handler call
and leaves the stored table unchanged; conversely, every successful start
started from a `Created` record. -/
theorem start_indexer_requires_created
    (spawn : IndexerModel → Nat) (db : List IndexerDb) (id : Nat) :
    (∀ m, getIndexer db id = .ok m → m.status ≠ .Created →
      start_indexer spawn db id = (.error .PreconditionFailed, db, [])) ∧
    (∀ m2 db2 calls, start_indexer spawn db id = (.ok m2, db2, calls) →
      ∃ m, getIndexer db id = .ok m ∧ m.status = .Created) := by
  constructor
  · intro m hm hne
    unfold start_indexer
    rw [hm]
    simp [hne]
  · intro m2 db2 calls h
    unfold start_indexer at h
    split at h
    · exact Except.noConfusion (congrArg (fun p => p.1) h)
    · rename_i m heq
      by_cases hst : m.status = .Created
      · exact ⟨m, heq, hst⟩
      · rw [if_neg hst] at h
        exact Except.noConfusion (congrArg (fun p => p.1) h)

/-- Claim C3 witness: starting a concrete indexer that is already `Running`
is rejected with `PreconditionFailed`, the table is returned unchanged and
no handler call is made, whatever process id the handler would have
produced. -/
theorem start_indexer_requires_created_witness :
    start_indexer (fun _ => 99)
        [{ id := 7, status := "Running", indexer_type := "Webhook",
           process_id := some 42, target_url := "u" }] 7 =
      (.error .PreconditionFailed,
       [{ id := 7, status := "Running", indexer_type := "Webhook",
          process_id := some 42, target_url := "u" }], []) :=
  (start_indexer_requires_created (fun _ => 99)
      [{ id := 7, status := "Running", indexer_type := "Webhook",
         process_id := some 42, target_url := "u" }] 7).1
    { id := 7, status := .Running, process_id := some 42, indexer_type := .Webhook,
      target_url := "u" }
    rfl (by decide)

/-- Claim C6: consuming a failure-queue message for an indexer whose
current status is `Running` transitions it to `FailedRunning` through the
repository alone — the operation makes no type-handler call — and the
returned record still carries the `process_id` the record had while
running. -/
theorem fail_indexer_running_keeps_process_id
    (db : List IndexerDb) (id : Nat) (m : IndexerModel) (p : Int)
    (h1 : getIndexer db id = .ok m) (h2 : m.status = .Running)
    (h3 : m.process_id = some p) :
    ∃ m2, (fail_indexer db id).1 = .ok m2 ∧
      m2.status = .FailedRunning ∧ m2.process_id = some p ∧
      (fail_indexer db id).2.2 = [] := by
  obtain ⟨r, hfind, htry⟩ := getIndexer_ok_inv db id m h1
  obtain ⟨hs, ht, hid, hpid, hurl⟩ := tryFromIndexerDb_ok_inv r m htry
  have hrp : r.process_id = some p := by rw [← hpid, h3]
  have e := update_status_result_ok db
    { id := id, status := IndexerStatus.FailedRunning.toText } r .FailedRunning
    m.indexer_type hfind (status_text_roundtrip .FailedRunning) ht
  unfold fail_indexer
  split
  · rename_i e2 heq
    rw [h1] at heq
    exact Except.noConfusion heq
  · rename_i m2 heq
    rw [h1] at heq
    injection heq with hm
    subst hm
    rw [if_pos h2]
    refine ⟨{ id := r.id, status := .FailedRunning, process_id := r.process_id,
              indexer_type := m.indexer_type, target_url := r.target_url },
            ?_, rfl, hrp, rfl⟩
    show ((update_status db
        { id := id, status := IndexerStatus.FailedRunning.toText }).1).mapError
          LifecycleError.Infra = _
    rw [e]
    rfl

/-- Claim C6 witness: the statement at a concrete one-row table holding a
`Running` indexer with process id 42. -/
theorem fail_indexer_running_keeps_process_id_witness :
    ∃ m2, (fail_indexer
        [{ id := 7, status := "Running", indexer_type := "Webhook",
           process_id := some 42, target_url := "u" }] 7).1 = .ok m2 ∧
      m2.status = .FailedRunning ∧ m2.process_id = some 42 ∧
      (fail_indexer
        [{ id := 7, status := "Running", indexer_type := "Webhook",
           process_id := some 42, target_url := "u" }] 7).2.2 = [] :=
  fail_indexer_running_keeps_process_id
    [{ id := 7, status := "Running", indexer_type := "Webhook",
       process_id := some 42, target_url := "u" }] 7
    { id := 7, status := .Running, process_id := some 42, indexer_type := .Webhook,
      target_url := "u" }
    42 rfl rfl rfl
